import Mathlib

/-!
# Verification of the CS22301 Microlearning portal (src/app.py)

Shallow embedding of the Streamlit script `app.py`.  The script is rerun on
every user interaction; per-client state lives in `st.session_state`.  We model
one rerun of the script as a pure function from the session state, the widget
event of that rerun, and the current wall-clock time (integral seconds) to the
new session state plus the observable effects (messages, certificate-issuer
invocations, the exposed download handle).

Roster cells are modelled as strings, mirroring `astype(str)` in
`find_student`.  A pandas `DataFrame` becomes a list of column names plus a
list of rows (each a list of cell strings, indexed positionally).
-/

namespace Microlearning

/-- A pandas DataFrame as loaded from the decrypted roster spreadsheet:
column names and rows of (stringified) cells. -/
structure Df where
  columns : List String
  rows : List (List String)
deriving DecidableEq, Repr

/-- A student record: `match.iloc[0].to_dict()`, i.e. the association of
column names to the matched row's cells. -/
abbrev StudentRec := List (String × String)

/-- Python `str.lower()` on one character (ASCII range, which is all the
roster data uses). -/
def pyLowerChar (c : Char) : Char :=
  if 'A' ≤ c ∧ c ≤ 'Z' then Char.ofNat (c.toNat + 32) else c

/-- The whitespace characters removed by Python `str.strip()`. -/
def pySpace (c : Char) : Bool :=
  c == ' ' || c == '\t' || c == '\n' || c == '\r' || c == '\x0b' || c == '\x0c'

/-- Python `str.strip()` on a character list: drop whitespace from both ends. -/
def pyStrip (l : List Char) : List Char :=
  ((l.dropWhile pySpace).reverse.dropWhile pySpace).reverse

/-- Normalisation `str(x).strip().lower()` applied to a query or a roster cell
(app.py lines 54 and 56). -/
def normKey (s : String) : String := ⟨(pyStrip s.data).map pyLowerChar⟩

/-- Cell of a row at column index `j` (pandas positional access). -/
def cellAt (row : List String) (j : Nat) : String := row.getD j ""

/-- The column loop of `find_student` (app.py lines 55-59), over the remaining
column indices: for each column in order, filter the rows whose normalised
cell in that column equals the normalised query; the first column with a
non-empty filter yields its first matching row as a dict. -/
def findInCols (df : Df) (key : String) : List Nat → Option StudentRec
  | [] => none
  | j :: js =>
    match df.rows.find? (fun row => normKey (cellAt row j) == key) with
    | some row => some (df.columns.zip row)
    | none => findInCols df key js

/-- The lookup `find_student(df, reg_no)` (app.py lines 53-60). -/
def find_student (df : Df) (reg_no : String) : Option StudentRec :=
  findInCols df (normKey reg_no) (List.range df.columns.length)

/-- Python `student.get(key, default)` on the dict produced by `find_student`. -/
def dictGet (r : StudentRec) (k : String) (default : String) : String :=
  match r.find? (fun p => p.1 == k) with
  | some p => p.2
  | none => default

/-- The constant `CERT_DIR` (app.py line 12). -/
def CERT_DIR : String := "certificates"

/-- Python `subject.replace(' ', '_')`: every space becomes an underscore. -/
def underscoreSpaces (s : String) : String :=
  ⟨s.data.map (fun c => if c = ' ' then '_' else c)⟩

/-- The function `create_certificate(name, reg_no, subject)` (app.py lines 63-97): the
Certificate Issuer.  Its PDF-rendering body is opaque to this development; the
observable outcome is the deterministic handle (file path) it returns:
`os.path.join(CERT_DIR, f"{reg_no}_{subject.replace(' ', '_')}.pdf")`.
The arguments it was invoked with are recorded separately by the rerun
semantics (`VideoOut.issuerCalls`). -/
def create_certificate (name reg_no subject : String) : String :=
  CERT_DIR ++ "/" ++ reg_no ++ "_" ++ underscoreSpaces subject ++ ".pdf"

/-- The configuration read from Streamlit secrets (app.py lines 16-26):
`VIDEO_DURATION` (seconds), `SUBJECT`, `ADMIN_PASSWORD`. -/
structure Config where
  duration : Nat
  subject : String
  adminPw : String
deriving DecidableEq, Repr

/-- The default configuration values of app.py lines 24-25 with an arbitrary
admin password. -/
def defaultConfig : Config :=
  { duration := 600, subject := "CS22301 Microlearning", adminPw := "s3cret" }

/-- The per-client `st.session_state` fields that app.py reads and writes.
`df` is the loaded roster (None on load failure), the rest are set by the
login handler (lines 124-128) and the confirm handler (lines 163-165).
Times are integral seconds on an absolute clock (`datetime.now()`). -/
structure AppState where
  df : Option Df
  student : Option StudentRec
  login_time : Option Nat
  timer_started : Bool
  video_done : Bool
  certificate_ready : Bool
  certificate_path : Option String
deriving DecidableEq, Repr

/-- The widget interaction driving one rerun of the script.  Streamlit
delivers at most one button event per rerun.  `confirmClick` carries the
outcome of the `create_certificate` call should it be reached (`none` =
returns normally, `some e` = raises exception `e`); `adminReload` carries the
typed password and the outcome of the `load_student_file()` call should it be
reached (`none` = any of the three failure modes, all of which return None:
missing file, decrypt failure, empty result — app.py lines 33, 44, 50). -/
inductive Event where
  | noop : Event
  | loginClick : Event
  | confirmClick (issuerFail : Option String) : Event
  | adminReload (pw : String) (loadResult : Option Df) : Event
deriving DecidableEq, Repr

/-- Whether this rerun carries a click of the Login button (line 119). -/
def Event.isLoginClick : Event → Bool
  | Event.loginClick => true
  | _ => false

/-- The confirm-button click of this rerun, if any, with its issuer outcome
(line 161). -/
def Event.confirmOf : Event → Option (Option String)
  | Event.confirmClick f => some f
  | _ => none

/-- The admin-reload click of this rerun, if any, with the typed password and
the roster-load outcome (lines 176-181). -/
def Event.adminOf : Event → Option (String × Option Df)
  | Event.adminReload pw load => some (pw, load)
  | _ => none

/-- The login section (app.py lines 118-129): if the Login button was clicked
and the registration-number text box is non-empty (Python string truthiness),
look the number up; on a miss, surface an error and leave the state alone; on
a hit, record the student, set the login timestamp to now and (re)enter the
watching phase.  Returns the new state and the error message, if any. -/
def loginStep (df : Df) (s : AppState) (clicked : Bool) (reg_no : String)
    (now : Nat) : AppState × Option String :=
  if clicked ∧ reg_no ≠ "" then
    match find_student df reg_no with
    | none => (s, some "Registration number not found in the student list.")
    | some stu =>
      ({ s with student := some stu, login_time := some now,
                timer_started := true, video_done := false,
                certificate_ready := false }, none)
  else (s, none)

/-- Observable outcome of the video/timer/confirm section. -/
structure VideoOut where
  state : AppState
  issuerCalls : List (String × String × String)
  warning : Option Int
  exc : Option String
  exposed : Option String
deriving DecidableEq, Repr

/-- The video + timer + confirm section (app.py lines 131-172), entered only
when `timer_started` (line 132).  `elapsed = now - login_time`; when the
remaining time is not positive, `video_done` is set (line 150).  A click of
the confirm button then either invokes the Certificate Issuer (recording the
`(name, reg, subject)` invocation; on an exception the script run aborts with
the remaining assignments unexecuted) or is rejected with a warning carrying
`int(remaining)` seconds (line 168).  Finally the download link (line 171) is
exposed iff `certificate_ready`.  `confirm` is `some issuerFail` when the
confirm button was clicked this rerun. -/
def videoStep (cfg : Config) (s : AppState) (confirm : Option (Option String))
    (reg_no : String) (now : Nat) : VideoOut :=
  if s.timer_started then
    let student := s.student.getD []
    let name := dictGet student "Name" "Student"
    let reg := dictGet student "Reg_No" reg_no
    let elapsed : Int := (now : Int) - ((s.login_time.getD 0 : Nat) : Int)
    let remaining : Int := (cfg.duration : Int) - elapsed
    let s2 := if 0 < remaining then s else { s with video_done := true }
    let afterClick : VideoOut :=
      match confirm with
      | none =>
        { state := s2, issuerCalls := [], warning := none, exc := none,
          exposed := none }
      | some issuerFail =>
        if s2.video_done then
          match issuerFail with
          | some e =>
            { state := s2, issuerCalls := [(name, reg, cfg.subject)],
              warning := none, exc := some e, exposed := none }
          | none =>
            let path := create_certificate name reg cfg.subject
            { state := { s2 with certificate_path := some path,
                                 certificate_ready := true },
              issuerCalls := [(name, reg, cfg.subject)], warning := none,
              exc := none, exposed := none }
        else
          { state := s2, issuerCalls := [], warning := some remaining,
            exc := none, exposed := none }
    match afterClick.exc with
    | some _ => afterClick
    | none =>
      { afterClick with
          exposed := if afterClick.state.certificate_ready then
                       afterClick.state.certificate_path
                     else none }
  else
    { state := s, issuerCalls := [], warning := none, exc := none,
      exposed := none }

/-- Observable outcome of one full rerun of the script. -/
structure Outcome where
  state : AppState
  halted : Bool
  loginError : Option String
  issuerCalls : List (String × String × String)
  warning : Option Int
  exc : Option String
  exposedCert : Option String
deriving DecidableEq, Repr

/-- One rerun of app.py (lines 106-181) against session state `s`, widget
event `ev`, current registration-number text `reg_no`, at wall-clock second
`now`.  The roster guard (lines 113-115) stops the script when the stored
roster is None; otherwise the login, video and admin sections run in order.
An uncaught exception from the Issuer aborts the rest of the run (the admin
section and the download link never execute) but is surfaced in the UI by the
Streamlit script runner without killing the server process. -/
def rerun (cfg : Config) (s : AppState) (ev : Event) (reg_no : String)
    (now : Nat) : Outcome :=
  match s.df with
  | none =>
    { state := s, halted := true, loginError := none, issuerCalls := [],
      warning := none, exc := none, exposedCert := none }
  | some df =>
    let lr := loginStep df s ev.isLoginClick reg_no now
    let vo := videoStep cfg lr.1 ev.confirmOf reg_no now
    match vo.exc with
    | some e =>
      { state := vo.state, halted := false, loginError := lr.2,
        issuerCalls := vo.issuerCalls, warning := vo.warning, exc := some e,
        exposedCert := vo.exposed }
    | none =>
      let s3 :=
        match ev.adminOf with
        | some (pw, load) =>
          if pw = cfg.adminPw then { vo.state with df := load } else vo.state
        | none => vo.state
      { state := s3, halted := false, loginError := lr.2,
        issuerCalls := vo.issuerCalls, warning := vo.warning, exc := none,
        exposedCert := vo.exposed }

/-- The spec's session phases.  Eligible is derived from the clock, never
stored (spec §4.1). -/
inductive Phase where
  | Anonymous : Phase
  | Watching : Phase
  | Eligible : Phase
  | Certified : Phase
deriving DecidableEq, Repr

/-- The phase the spec assigns to a session state at clock second `now`:
Certified once `certificate_ready`; otherwise Watching/Eligible according to
the elapsed time while the timer runs; Anonymous before any login. -/
def phase (cfg : Config) (s : AppState) (now : Nat) : Phase :=
  if s.certificate_ready then Phase.Certified
  else if s.timer_started then
    if (cfg.duration : Int) ≤ (now : Int) - ((s.login_time.getD 0 : Nat) : Int)
    then Phase.Eligible
    else Phase.Watching
  else Phase.Anonymous

/-- The certificate handle the presentation layer exposes: the download link
of app.py lines 170-172 renders iff the session is inside the timer block and
`certificate_ready` is set.  (The raw `certificate_path` session field may
outlive certification, but is never exposed while `certificate_ready` is
false.) -/
def exposedCertificate (s : AppState) : Option String :=
  if s.timer_started && s.certificate_ready then s.certificate_path else none

/-! ## Concrete fixtures used by witnesses and counterexamples -/

/-- A one-student roster: Jane Doe, registration number A100 (the scenario of
spec §8). -/
def dfJane : Df := ⟨["Reg_No", "Name"], [["A100", "Jane Doe"]]⟩

/-- A roster whose stored registration cell carries stray whitespace and
lower case. -/
def dfMessy : Df := ⟨["Reg_No"], [[" a100 "]]⟩

/-- A two-column roster where the query "x" matches row 1 in column A and
row 0 in column B. -/
def dfTwoCols : Df := ⟨["A", "B"], [["p", "x"], ["x", "q"]]⟩

/-- The default configuration with a concrete admin password. -/
def cfg0 : Config := { defaultConfig with adminPw := "pw" }

/-- Jane Doe's session right after `login("A100")` at second 0: the Watching
phase of spec §8's scenario. -/
def sWatch : AppState :=
  { df := some dfJane, student := some [("Reg_No", "A100"), ("Name", "Jane Doe")],
    login_time := some 0, timer_started := true, video_done := false,
    certificate_ready := false, certificate_path := none }

/-- Jane Doe's session after certification succeeded at second 600: the
Certified phase, with the deterministic certificate handle stored. -/
def sCert : AppState :=
  { sWatch with
      video_done := true
      certificate_ready := true
      certificate_path := some "certificates/A100_CS22301_Microlearning.pdf" }

/-! ## Lemmas about the roster lookup -/

/-- Columns whose filtered match set is empty are skipped by the column
loop. -/
lemma findInCols_append (df : Df) (key : String) (js₁ js₂ : List Nat)
    (h : ∀ i ∈ js₁,
      df.rows.find? (fun row => normKey (cellAt row i) == key) = none) :
    findInCols df key (js₁ ++ js₂) = findInCols df key js₂ := by
  induction js₁ with
  | nil => rfl
  | cons j js ih =>
    simp only [List.cons_append, findInCols]
    rw [h j (List.mem_cons_self j js)]
    exact ih (fun i hi => h i (List.mem_cons_of_mem j hi))

/-- A column whose filter is non-empty ends the column loop with the first
matching row of that column. -/
lemma findInCols_cons_found (df : Df) (key : String) (j : Nat) (js : List Nat)
    (row : List String)
    (h : df.rows.find? (fun r => normKey (cellAt r j) == key) = some row) :
    findInCols df key (j :: js) = some (df.columns.zip row) := by
  simp only [findInCols, h]

/-- The list `List.range n` splits at any `j < n`. -/
lemma range_split_at (n j : Nat) (hj : j < n) :
    List.range n = List.range j ++ j :: List.range' (j + 1) (n - (j + 1)) := by
  have h1 : List.range n = List.range' 0 n := List.range_eq_range' n
  have h2 : List.range j = List.range' 0 j := List.range_eq_range' j
  rw [h1, h2]
  have h3 : j :: List.range' (j + 1) (n - (j + 1)) = List.range' j (n - j) := by
    have : n - j = (n - (j + 1)) + 1 := by omega
    rw [this, List.range'_succ]
  rw [h3]
  have h4 := List.range'_append 0 j (n - j) 1
  have h5 : n - j + j = n := by omega
  simpa [h5] using h4.symm

/-! ## Evaluation lemmas for one rerun -/

/-- The name passed to the Issuer: `student.get("Name", "Student")`
(app.py line 134, reused at line 163). -/
def studentName (s : AppState) : String :=
  dictGet (s.student.getD []) "Name" "Student"

/-- The registration number passed to the Issuer:
`student.get("Reg_No", reg_no)` (app.py line 135). -/
def studentReg (s : AppState) (reg_no : String) : String :=
  dictGet (s.student.getD []) "Reg_No" reg_no

/-- The timer block does nothing before any login. -/
lemma videoStep_idle (cfg : Config) (s : AppState) (c : Option (Option String))
    (reg_no : String) (now : Nat) (hts : s.timer_started = false) :
    videoStep cfg s c reg_no now =
      { state := s, issuerCalls := [], warning := none, exc := none,
        exposed := none } := by
  simp [videoStep, hts]

/-- A redraw without a confirm click, before the duration elapses, changes
nothing and exposes the download link iff the certificate is ready. -/
lemma videoStep_noclick (cfg : Config) (s : AppState) (reg_no : String)
    (now lt : Nat) (hts : s.timer_started = true) (hlt : s.login_time = some lt)
    (h : (now : Int) - (lt : Int) < (cfg.duration : Int)) :
    videoStep cfg s none reg_no now =
      { state := s, issuerCalls := [], warning := none, exc := none,
        exposed := if s.certificate_ready then s.certificate_path else none } := by
  simp only [videoStep, hts, hlt, Option.getD_some, if_true]
  rw [if_pos (by omega : (0 : Int) < (cfg.duration : Int) - ((now : Int) - (lt : Int)))]

/-- A premature confirm click (elapsed strictly below the duration, gate not
yet recorded): state untouched, no Issuer call, warning with the remaining
seconds. -/
lemma videoStep_premature (cfg : Config) (s : AppState) (fail : Option String)
    (reg_no : String) (now lt : Nat)
    (hts : s.timer_started = true) (hvd : s.video_done = false)
    (hcr : s.certificate_ready = false) (hlt : s.login_time = some lt)
    (h : (now : Int) - (lt : Int) < (cfg.duration : Int)) :
    videoStep cfg s (some fail) reg_no now =
      { state := s, issuerCalls := [],
        warning := some ((cfg.duration : Int) - ((now : Int) - (lt : Int))),
        exc := none, exposed := none } := by
  simp only [videoStep, hts, hlt, Option.getD_some, if_true]
  rw [if_pos (by omega : (0 : Int) < (cfg.duration : Int) - ((now : Int) - (lt : Int)))]
  simp [hvd, hcr]

/-- The session state after a successful certification on state `s`: the
gate flag and ready flag set, and the deterministic handle of
`create_certificate` stored (app.py lines 163-165). -/
def certifiedState (cfg : Config) (s : AppState) (reg_no : String) : AppState :=
  { s with
      video_done := true
      certificate_ready := true
      certificate_path := some (create_certificate (studentName s)
        (studentReg s reg_no) cfg.subject) }

/-- A confirm click with the gate satisfied (either recorded by a previous
redraw, or the duration has elapsed now) and a normally-returning Issuer:
the Issuer is invoked with `(name, reg, subject)` and the session becomes
certified with the deterministic handle, which is immediately exposed. -/
lemma videoStep_eligible_ok (cfg : Config) (s : AppState) (reg_no : String)
    (now lt : Nat) (hts : s.timer_started = true) (hlt : s.login_time = some lt)
    (hgate : s.video_done = true ∨ (cfg.duration : Int) ≤ (now : Int) - (lt : Int)) :
    videoStep cfg s (some none) reg_no now =
      { state := certifiedState cfg s reg_no,
        issuerCalls := [(studentName s, studentReg s reg_no, cfg.subject)],
        warning := none, exc := none,
        exposed := some (create_certificate (studentName s) (studentReg s reg_no)
          cfg.subject) } := by
  obtain ⟨f1, f2, f3, f4, f5, f6, f7⟩ := s
  simp only at hts hlt hgate ⊢
  subst hts hlt
  simp only [videoStep, certifiedState, studentName, studentReg, Option.getD_some]
  by_cases hrem : (0 : Int) < (cfg.duration : Int) - ((now : Int) - (lt : Int))
  · have hvd : f5 = true := by
      rcases hgate with h | h
      · exact h
      · omega
    subst hvd
    rw [if_pos hrem]
    simp
  · rw [if_neg hrem]
    simp

/-- A confirm click with the gate satisfied but an Issuer that raises: the
invocation is recorded, the exception is surfaced, the gate flag persists,
and the certificate fields stay untouched. -/
lemma videoStep_eligible_exc (cfg : Config) (s : AppState) (e : String)
    (reg_no : String) (now lt : Nat)
    (hts : s.timer_started = true) (hlt : s.login_time = some lt)
    (hgate : s.video_done = true ∨ (cfg.duration : Int) ≤ (now : Int) - (lt : Int)) :
    videoStep cfg s (some (some e)) reg_no now =
      { state := { s with video_done := true },
        issuerCalls := [(studentName s, studentReg s reg_no, cfg.subject)],
        warning := none, exc := some e, exposed := none } := by
  obtain ⟨f1, f2, f3, f4, f5, f6, f7⟩ := s
  simp only at hts hlt hgate ⊢
  subst hts hlt
  simp only [videoStep, studentName, studentReg, Option.getD_some]
  by_cases hrem : (0 : Int) < (cfg.duration : Int) - ((now : Int) - (lt : Int))
  · have hvd : f5 = true := by
      rcases hgate with h | h
      · exact h
      · omega
    subst hvd
    rw [if_pos hrem]
    simp
  · rw [if_neg hrem]
    simp

/-- The timer block never invokes the Issuer and never raises when the
confirm button was not clicked. -/
lemma videoStep_no_confirm_quiet (cfg : Config) (s : AppState)
    (reg_no : String) (now : Nat) :
    (videoStep cfg s none reg_no now).exc = none ∧
    (videoStep cfg s none reg_no now).issuerCalls = [] := by
  by_cases hts : s.timer_started <;> simp only [videoStep, hts] <;>
    split_ifs <;> simp

/-- The timer block never touches the stored roster. -/
lemma videoStep_df (cfg : Config) (s : AppState) (c : Option (Option String))
    (reg_no : String) (now : Nat) :
    (videoStep cfg s c reg_no now).state.df = s.df := by
  rcases c with _ | (_ | e) <;> by_cases hts : s.timer_started <;>
    simp only [videoStep, hts] <;> split_ifs <;> simp

/-- The login section never touches the stored roster. -/
lemma loginStep_df (df : Df) (s : AppState) (c : Bool) (reg_no : String)
    (now : Nat) :
    (loginStep df s c reg_no now).1.df = s.df := by
  by_cases hc : c ∧ reg_no ≠ ""
  · simp only [loginStep, if_pos hc]
    cases find_student df reg_no <;> simp
  · simp [loginStep, hc]

/-- The timer block never touches the recorded student. -/
lemma videoStep_student (cfg : Config) (s : AppState) (c : Option (Option String))
    (reg_no : String) (now : Nat) :
    (videoStep cfg s c reg_no now).state.student = s.student := by
  rcases c with _ | (_ | e) <;> by_cases hts : s.timer_started <;>
    simp only [videoStep, hts] <;> split_ifs <;> simp

/-- The session state written by a successful login at second `now`
(app.py lines 124-128). -/
def loggedInState (s : AppState) (stu : StudentRec) (now : Nat) : AppState :=
  { s with
      student := some stu
      login_time := some now
      timer_started := true
      video_done := false
      certificate_ready := false }

/-- The login section on a click with a roster hit writes the fresh watching
state. -/
lemma loginStep_found (df : Df) (s : AppState) (reg_no : String) (now : Nat)
    (stu : StudentRec) (hq : reg_no ≠ "")
    (hfind : find_student df reg_no = some stu) :
    loginStep df s true reg_no now = (loggedInState s stu now, none) := by
  simp [loginStep, hq, hfind, loggedInState]

/-- The login section on a click with a roster miss surfaces the error and
leaves the state alone. -/
lemma loginStep_miss (df : Df) (s : AppState) (reg_no : String) (now : Nat)
    (hfind : find_student df reg_no = none) :
    loginStep df s true reg_no now =
      (s, if reg_no = "" then none
          else some "Registration number not found in the student list.") := by
  by_cases hq : reg_no = "" <;> simp [loginStep, hq, hfind]

/-- A rerun carrying a confirm click is the timer block's outcome: the login
and admin sections contribute nothing. -/
lemma rerun_confirm_outcome (cfg : Config) (s : AppState) (df : Df)
    (fail : Option String) (reg_no : String) (now : Nat)
    (hdf : s.df = some df) :
    rerun cfg s (Event.confirmClick fail) reg_no now =
      { state := (videoStep cfg s (some fail) reg_no now).state,
        halted := false, loginError := none,
        issuerCalls := (videoStep cfg s (some fail) reg_no now).issuerCalls,
        warning := (videoStep cfg s (some fail) reg_no now).warning,
        exc := (videoStep cfg s (some fail) reg_no now).exc,
        exposedCert := (videoStep cfg s (some fail) reg_no now).exposed } := by
  cases hexc : (videoStep cfg s (some fail) reg_no now).exc <;>
    simp [rerun, hdf, Event.isLoginClick, Event.confirmOf, Event.adminOf,
      loginStep, hexc]

/-- A rerun carrying a Login click composes the login section with a
click-free pass of the timer block. -/
lemma rerun_login_outcome (cfg : Config) (s : AppState) (df : Df)
    (reg_no : String) (now : Nat) (hdf : s.df = some df) :
    rerun cfg s Event.loginClick reg_no now =
      { state := (videoStep cfg (loginStep df s true reg_no now).1 none reg_no now).state,
        halted := false,
        loginError := (loginStep df s true reg_no now).2,
        issuerCalls := [],
        warning := (videoStep cfg (loginStep df s true reg_no now).1 none reg_no now).warning,
        exc := none,
        exposedCert := (videoStep cfg (loginStep df s true reg_no now).1 none reg_no now).exposed } := by
  have hq := videoStep_no_confirm_quiet cfg (loginStep df s true reg_no now).1 reg_no now
  simp [rerun, hdf, Event.isLoginClick, Event.confirmOf, Event.adminOf,
    hq.1, hq.2]

/-- A rerun carrying an admin-reload click: a click-free pass of the timer
block, then the roster swap iff the password is exactly the secret. -/
lemma rerun_admin_outcome (cfg : Config) (s : AppState) (df : Df) (pw : String)
    (load : Option Df) (reg_no : String) (now : Nat) (hdf : s.df = some df) :
    rerun cfg s (Event.adminReload pw load) reg_no now =
      { state := if pw = cfg.adminPw
                 then { (videoStep cfg s none reg_no now).state with df := load }
                 else (videoStep cfg s none reg_no now).state,
        halted := false, loginError := none, issuerCalls := [],
        warning := (videoStep cfg s none reg_no now).warning, exc := none,
        exposedCert := (videoStep cfg s none reg_no now).exposed } := by
  have hq := videoStep_no_confirm_quiet cfg s reg_no now
  by_cases hpw : pw = cfg.adminPw <;>
    simp [rerun, hdf, Event.isLoginClick, Event.confirmOf, Event.adminOf,
      loginStep, hq.1, hq.2, hpw]

/-! ## Claim theorems -/

/-- C1: for a session in the Watching phase (timer running, gate not yet
satisfied or recorded, not certified), a confirm click while
`elapsed = now - loginTimestamp` is strictly below `requiredDurationSeconds`
leaves the whole session state unchanged, invokes the Issuer not at all, and
warns with exactly the remaining seconds `duration - elapsed` (the
`int(remaining)` of app.py line 168); a confirm click once
`elapsed >= requiredDurationSeconds` — so already at
`elapsed = requiredDurationSeconds` exactly — invokes the Issuer and moves
the session to Certified. -/
theorem confirmWatched_time_gate (cfg : Config) (s : AppState) (df : Df)
    (lt : Nat) (fail : Option String) (reg_no : String) (now : Nat)
    (hdf : s.df = some df) (hts : s.timer_started = true)
    (hvd : s.video_done = false) (hcr : s.certificate_ready = false)
    (hlt : s.login_time = some lt) :
    ((now : Int) - (lt : Int) < (cfg.duration : Int) →
      rerun cfg s (Event.confirmClick fail) reg_no now =
        { state := s, halted := false, loginError := none, issuerCalls := [],
          warning := some ((cfg.duration : Int) - ((now : Int) - (lt : Int))),
          exc := none, exposedCert := none } ∧
      phase cfg s now = Phase.Watching) ∧
    ((cfg.duration : Int) ≤ (now : Int) - (lt : Int) →
      (rerun cfg s (Event.confirmClick none) reg_no now).issuerCalls =
        [(studentName s, studentReg s reg_no, cfg.subject)] ∧
      (rerun cfg s (Event.confirmClick none) reg_no now).state =
        certifiedState cfg s reg_no ∧
      phase cfg (certifiedState cfg s reg_no) now = Phase.Certified) := by
  constructor
  · intro h
    refine ⟨?_, ?_⟩
    · rw [rerun_confirm_outcome cfg s df fail reg_no now hdf,
        videoStep_premature cfg s fail reg_no now lt hts hvd hcr hlt h]
    · simp only [phase, hcr, hts, hlt, Option.getD_some]
      rw [if_neg (by simp), if_pos (by simp), if_neg (by omega)]
  · intro h
    rw [rerun_confirm_outcome cfg s df none reg_no now hdf,
      videoStep_eligible_ok cfg s reg_no now lt hts hlt (Or.inr h)]
    refine ⟨rfl, rfl, ?_⟩
    simp [phase, certifiedState]

/-- Witness for C1 on the spec §8 scenario (duration 600, Jane Doe logged in
at second 0): at t=599 the confirm click warns of 1 remaining second and
invokes no Issuer; at t=600 it invokes the Issuer once and certifies. -/
theorem confirmWatched_time_gate_witness :
    (rerun cfg0 sWatch (Event.confirmClick none) "" 599).warning = some 1 ∧
    (rerun cfg0 sWatch (Event.confirmClick none) "" 599).issuerCalls = [] ∧
    (rerun cfg0 sWatch (Event.confirmClick none) "" 599).state = sWatch ∧
    (rerun cfg0 sWatch (Event.confirmClick none) "" 600).issuerCalls =
      [("Jane Doe", "A100", "CS22301 Microlearning")] ∧
    (rerun cfg0 sWatch (Event.confirmClick none) "" 600).state.certificate_ready
      = true := by
  have h1 := confirmWatched_time_gate cfg0 sWatch dfJane 0 none "" 599
    rfl rfl rfl rfl rfl
  have h2 := confirmWatched_time_gate cfg0 sWatch dfJane 0 none "" 600
    rfl rfl rfl rfl rfl
  refine ⟨?_, ?_, ?_, ?_, ?_⟩
  · rw [(h1.1 (by decide)).1]
    decide
  · rw [(h1.1 (by decide)).1]
  · rw [(h1.1 (by decide)).1]
  · rw [(h2.2 (by decide)).1]
    decide
  · rw [(h2.2 (by decide)).2.1]
    decide

/-- Counterexample to C2 as stated: in the Certified state of the spec §8
scenario, clicking the confirm button again at t=700 re-invokes the
Certificate Issuer (the handler at app.py lines 161-166 has no guard on
`certificate_ready`, so `create_certificate` runs again). -/
theorem confirm_certified_reissues :
    (rerun cfg0 sCert (Event.confirmClick none) "" 700).issuerCalls ≠ [] := by
  decide

/-- C2 as amended: re-clicking confirm while Certified re-invokes the Issuer
with the same arguments, regenerating the document at the same deterministic
path; the session state is unchanged and the same handle is re-exposed — the
action is idempotent on the session state but not free of side effects. -/
theorem confirm_certified_idempotent_state (cfg : Config) (s : AppState)
    (df : Df) (lt : Nat) (reg_no : String) (now : Nat)
    (hdf : s.df = some df) (hts : s.timer_started = true)
    (hvd : s.video_done = true) (hcr : s.certificate_ready = true)
    (hlt : s.login_time = some lt)
    (hpath : s.certificate_path =
      some (create_certificate (studentName s) (studentReg s reg_no) cfg.subject)) :
    (rerun cfg s (Event.confirmClick none) reg_no now).issuerCalls =
      [(studentName s, studentReg s reg_no, cfg.subject)] ∧
    (rerun cfg s (Event.confirmClick none) reg_no now).state = s ∧
    (rerun cfg s (Event.confirmClick none) reg_no now).exposedCert =
      s.certificate_path := by
  rw [rerun_confirm_outcome cfg s df none reg_no now hdf,
    videoStep_eligible_ok cfg s reg_no now lt hts hlt (Or.inl hvd)]
  have hstate : certifiedState cfg s reg_no = s := by
    obtain ⟨f1, f2, f3, f4, f5, f6, f7⟩ := s
    simp only [studentName, studentReg] at hvd hcr hpath
    subst hvd hcr hpath
    simp [certifiedState, studentName, studentReg]
  exact ⟨rfl, hstate, by rw [hpath]⟩

/-- Witness for C2's amended statement at the Certified state of the
scenario. -/
theorem confirm_certified_idempotent_state_witness :
    (rerun cfg0 sCert (Event.confirmClick none) "" 700).state = sCert :=
  (confirm_certified_idempotent_state cfg0 sCert dfJane 0 "" 700
    rfl rfl rfl rfl rfl (by decide)).2.1

/-- An Anonymous session right after a successful roster load of the Jane
Doe roster. -/
def sAnon : AppState :=
  { df := some dfJane, student := none, login_time := none,
    timer_started := false, video_done := false, certificate_ready := false,
    certificate_path := none }

/-- C3: on an Anonymous session, a Login click with a registration number
that `find_student` resolves (the trimmed, lowercased form occurs in the
roster) moves the session to Watching, records the matched record and sets
the login timestamp to now; with a number that does not resolve, the session
state is untouched (still Anonymous) and the "not found" error is surfaced.
The `reg_no ≠ ""` hypothesis is the truthiness guard of app.py line 119; the
positive duration is app.py's `VIDEO_DURATION` default 600. -/
theorem login_anonymous_transition (cfg : Config) (s : AppState) (df : Df)
    (reg_no : String) (now : Nat)
    (hdf : s.df = some df) (hanon : s.timer_started = false)
    (hcr : s.certificate_ready = false) (hq : reg_no ≠ "")
    (hdur : 0 < cfg.duration) :
    (∀ stu, find_student df reg_no = some stu →
      rerun cfg s Event.loginClick reg_no now =
        { state := loggedInState s stu now, halted := false, loginError := none,
          issuerCalls := [], warning := none, exc := none,
          exposedCert := none } ∧
      phase cfg (loggedInState s stu now) now = Phase.Watching ∧
      (loggedInState s stu now).student = some stu ∧
      (loggedInState s stu now).login_time = some now) ∧
    (find_student df reg_no = none →
      rerun cfg s Event.loginClick reg_no now =
        { state := s, halted := false,
          loginError := some "Registration number not found in the student list.",
          issuerCalls := [], warning := none, exc := none,
          exposedCert := none } ∧
      phase cfg s now = Phase.Anonymous) := by
  constructor
  · intro stu hfind
    rw [rerun_login_outcome cfg s df reg_no now hdf]
    simp only [loginStep_found df s reg_no now stu hq hfind]
    rw [videoStep_noclick cfg (loggedInState s stu now) reg_no now now rfl rfl
      (by omega)]
    refine ⟨?_, ?_, rfl, rfl⟩
    · simp [loggedInState]
    · simp only [phase, loggedInState]
      rw [if_neg (by simp), if_pos (by simp), if_neg (by simp; omega)]
  · intro hfind
    rw [rerun_login_outcome cfg s df reg_no now hdf]
    simp only [loginStep_miss df s reg_no now hfind, if_neg hq]
    rw [videoStep_idle cfg s none reg_no now hanon]
    refine ⟨by simp, ?_⟩
    simp [phase, hcr, hanon]

/-- Witness for C3: logging in as `A100` on the Anonymous session succeeds
and starts the timer; logging in as `bogus` leaves the session untouched. -/
theorem login_anonymous_transition_witness :
    (rerun cfg0 sAnon Event.loginClick "A100" 5).state =
      loggedInState sAnon [("Reg_No", "A100"), ("Name", "Jane Doe")] 5 ∧
    (rerun cfg0 sAnon Event.loginClick "bogus" 5).state = sAnon := by
  have h1 := login_anonymous_transition cfg0 sAnon dfJane "A100" 5
    rfl rfl rfl (by decide) (by decide)
  have h2 := login_anonymous_transition cfg0 sAnon dfJane "bogus" 5
    rfl rfl rfl (by decide) (by decide)
  constructor
  · rw [(h1.1 [("Reg_No", "A100"), ("Name", "Jane Doe")] (by decide)).1]
  · rw [(h2.2 (by decide)).1]

/-- C4: on a Certified session, a Login click with a registration number the
roster resolves resets the machine to a fresh Watching state for the new
student — the login timestamp is reset to now, the matched record is
recorded — and the exposed certificate handle is cleared (the download link
of app.py line 171 is gated on `certificate_ready`, which the login handler
resets at line 128), restoring the invariant that the handle is exposed iff
the phase is Certified.  The final conjuncts record that the pre-state was
Certified with its handle exposed. -/
theorem relogin_certified_resets (cfg : Config) (s : AppState) (df : Df)
    (reg_no : String) (now : Nat) (stu : StudentRec)
    (hdf : s.df = some df) (hcert : s.certificate_ready = true)
    (hts : s.timer_started = true) (hq : reg_no ≠ "")
    (hfind : find_student df reg_no = some stu) (hdur : 0 < cfg.duration) :
    (rerun cfg s Event.loginClick reg_no now).state = loggedInState s stu now ∧
    phase cfg (loggedInState s stu now) now = Phase.Watching ∧
    (loggedInState s stu now).student = some stu ∧
    (loggedInState s stu now).login_time = some now ∧
    exposedCertificate (loggedInState s stu now) = none ∧
    phase cfg s now = Phase.Certified ∧
    exposedCertificate s = s.certificate_path := by
  rw [rerun_login_outcome cfg s df reg_no now hdf]
  simp only [loginStep_found df s reg_no now stu hq hfind]
  rw [videoStep_noclick cfg (loggedInState s stu now) reg_no now now rfl rfl
    (by omega)]
  refine ⟨rfl, ?_, rfl, rfl, ?_, ?_, ?_⟩
  · simp only [phase, loggedInState]
    rw [if_neg (by simp), if_pos (by simp), if_neg (by simp; omega)]
  · simp [exposedCertificate, loggedInState]
  · simp [phase, hcert]
  · simp [exposedCertificate, hcert, hts]

/-- Witness for C4: re-login as `A100` on the Certified scenario state
resets to the fresh Watching state with no exposed handle. -/
theorem relogin_certified_resets_witness :
    (rerun cfg0 sCert Event.loginClick "A100" 700).state =
      loggedInState sCert [("Reg_No", "A100"), ("Name", "Jane Doe")] 700 ∧
    exposedCertificate
      (loggedInState sCert [("Reg_No", "A100"), ("Name", "Jane Doe")] 700) =
      none := by
  have h := relogin_certified_resets cfg0 sCert dfJane "A100" 700
    [("Reg_No", "A100"), ("Name", "Jane Doe")] rfl rfl rfl (by decide)
    (by decide) (by decide)
  exact ⟨h.1, h.2.2.2.2.1⟩

/-- C5: the admin gate compares the typed password by exact string equality
against the configured secret.  On a mismatch no capability is granted — the
stored roster is exactly the one from before the click.  On a match, the
reload click replaces the entire stored roster with the freshly loaded one,
and every subsequent login looks registration numbers up in the new roster
only (here: a subsequent successful lookup records the student found in the
new roster). -/
theorem adminReload_password_gate (cfg : Config) (s : AppState) (df : Df)
    (pw : String) (load : Option Df) (reg_no : String) (now : Nat)
    (hdf : s.df = some df) :
    (pw ≠ cfg.adminPw →
      (rerun cfg s (Event.adminReload pw load) reg_no now).state.df = some df) ∧
    (pw = cfg.adminPw →
      (rerun cfg s (Event.adminReload pw load) reg_no now).state.df = load ∧
      ∀ df₂ q now₂ stu, load = some df₂ → q ≠ "" →
        find_student df₂ q = some stu →
        (rerun cfg (rerun cfg s (Event.adminReload pw load) reg_no now).state
            Event.loginClick q now₂).state.student = some stu) := by
  constructor
  · intro hpw
    rw [rerun_admin_outcome cfg s df pw load reg_no now hdf]
    simp only [if_neg hpw]
    rw [videoStep_df]
    exact hdf
  · intro hpw
    rw [rerun_admin_outcome cfg s df pw load reg_no now hdf]
    simp only [if_pos hpw]
    refine ⟨by trivial, ?_⟩
    intro df₂ q now₂ stu hload hq hfind
    have htdf :
        ({ (videoStep cfg s none reg_no now).state with df := load } : AppState).df
          = some df₂ := hload
    rw [rerun_login_outcome cfg _ df₂ q now₂ htdf]
    simp only [loginStep_found df₂ _ q now₂ stu hq hfind]
    rw [videoStep_student]
    simp [loggedInState]

/-- Witness for C5: with the wrong password the Jane Doe roster survives;
with the right password the roster becomes `dfMessy` and a subsequent login
as `A100` finds the new roster's student. -/
theorem adminReload_password_gate_witness :
    (rerun cfg0 sAnon (Event.adminReload "nope" (some dfMessy)) "" 3).state.df
      = some dfJane ∧
    (rerun cfg0 sAnon (Event.adminReload "pw" (some dfMessy)) "" 3).state.df
      = some dfMessy ∧
    (rerun cfg0
        (rerun cfg0 sAnon (Event.adminReload "pw" (some dfMessy)) "" 3).state
        Event.loginClick "A100" 9).state.student = some [("Reg_No", " a100 ")] := by
  have h1 := adminReload_password_gate cfg0 sAnon dfJane "nope" (some dfMessy)
    "" 3 rfl
  have h2 := adminReload_password_gate cfg0 sAnon dfJane "pw" (some dfMessy)
    "" 3 rfl
  refine ⟨h1.1 (by decide), (h2.2 rfl).1, ?_⟩
  exact (h2.2 rfl).2 dfMessy "A100" 9 [("Reg_No", " a100 ")] rfl (by decide)
    (by decide)

/-- C6: Roster lookup of a registration number is case-insensitive and
whitespace-trimming on both the query and the stored cell values.  The first
conjunct states that `find_student` only ever sees the query through
`strip().lower()` normalisation, so any two queries with the same normal form
yield the same result; the remaining conjuncts evaluate the spec's instance —
a stored `A100` is found by `" A100 "`, `"a100"` and `"A100"`, and a stored
`" a100 "` (stray whitespace and case in the cell) is found by `"A100"`. -/
theorem find_student_normalised_lookup :
    (∀ (df : Df) (q₁ q₂ : String), normKey q₁ = normKey q₂ →
        find_student df q₁ = find_student df q₂) ∧
    find_student dfJane " A100 " = some [("Reg_No", "A100"), ("Name", "Jane Doe")] ∧
    find_student dfJane "a100" = some [("Reg_No", "A100"), ("Name", "Jane Doe")] ∧
    find_student dfJane "A100" = some [("Reg_No", "A100"), ("Name", "Jane Doe")] ∧
    find_student dfMessy "A100" = some [("Reg_No", " a100 ")] := by
  refine ⟨?_, by decide, by decide, by decide, by decide⟩
  intro df q₁ q₂ h
  unfold find_student
  rw [h]

/-- Witness for C6: the insensitivity conjunct applied at a concrete roster
and query pair. -/
theorem find_student_normalised_lookup_witness :
    find_student dfJane " A100 " = find_student dfJane "a100" :=
  find_student_normalised_lookup.1 dfJane " A100 " "a100" (by decide)

/-- C7: `find_student` matches the submitted registration number against
every column of every record (any column index `j` below the column count can
produce the result), and when multiple cells match, the winner is the first
matching row of the first matching column: if no cell of any column before
`j` matches and `row` is the first row matching in column `j`, the lookup
returns exactly that row's record — one deterministic record chosen by the
column-then-row ordering of the loop in app.py lines 55-59. -/
theorem find_student_first_matching_column_row (df : Df) (q : String) (j : Nat)
    (row : List String) (hj : j < df.columns.length)
    (hbefore : ∀ i, i < j → ∀ r ∈ df.rows, normKey (cellAt r i) ≠ normKey q)
    (hrow : df.rows.find? (fun r => normKey (cellAt r j) == normKey q) = some row) :
    find_student df q = some (df.columns.zip row) := by
  unfold find_student
  rw [range_split_at df.columns.length j hj]
  rw [findInCols_append]
  · exact findInCols_cons_found df (normKey q) j _ row hrow
  · intro i hi
    rw [List.find?_eq_none]
    intro r hr
    have hij : i < j := List.mem_range.mp hi
    simpa using hbefore i hij r hr

/-- Witness for C7 at `dfTwoCols` with query `"x"`: column B matches in row
0 and column A matches in row 1, and the lookup returns row 1 (column A wins,
then its first matching row), pinning the column-then-row precedence. -/
theorem find_student_first_matching_column_row_witness :
    find_student dfTwoCols "x" = some [("A", "x"), ("B", "q")] :=
  (find_student_first_matching_column_row dfTwoCols "x" 0 ["x", "q"]
    (by decide) (fun i hi => absurd hi (Nat.not_lt_zero i)) (by decide)).trans
    (by decide)

/-- C8: on an Eligible session (timer running, duration elapsed), a confirm
click with a normally-returning Issuer invokes the Issuer exactly once, with
the matched student record's `Name` field, the record's `Reg_No` field (the
registration-number column; app.py line 135 falls back to the typed text if
the record lacks that key, and line 134 to "Student" if it lacks `Name`), and
the configured subject; the session enters Certified with the certificate
handle set to the produced document path, which is exposed for download. -/
theorem confirm_eligible_certifies (cfg : Config) (s : AppState) (df : Df)
    (lt : Nat) (stu : StudentRec) (reg_no : String) (now : Nat)
    (hdf : s.df = some df) (hts : s.timer_started = true)
    (hstu : s.student = some stu) (hlt : s.login_time = some lt)
    (helig : (cfg.duration : Int) ≤ (now : Int) - (lt : Int)) :
    rerun cfg s (Event.confirmClick none) reg_no now =
      { state := certifiedState cfg s reg_no, halted := false,
        loginError := none,
        issuerCalls := [(dictGet stu "Name" "Student",
          dictGet stu "Reg_No" reg_no, cfg.subject)],
        warning := none, exc := none,
        exposedCert := some (create_certificate (dictGet stu "Name" "Student")
          (dictGet stu "Reg_No" reg_no) cfg.subject) } ∧
    (certifiedState cfg s reg_no).certificate_path =
      some (create_certificate (dictGet stu "Name" "Student")
        (dictGet stu "Reg_No" reg_no) cfg.subject) ∧
    phase cfg (certifiedState cfg s reg_no) now = Phase.Certified := by
  have hn : studentName s = dictGet stu "Name" "Student" := by
    simp [studentName, hstu]
  have hr : studentReg s reg_no = dictGet stu "Reg_No" reg_no := by
    simp [studentReg, hstu]
  rw [rerun_confirm_outcome cfg s df none reg_no now hdf,
    videoStep_eligible_ok cfg s reg_no now lt hts hlt (Or.inr helig)]
  refine ⟨by rw [hn, hr], ?_, by simp [phase, certifiedState]⟩
  simp [certifiedState, hn, hr]

/-- Witness for C8 on the spec §8 scenario at t=600: the Issuer receives
`("Jane Doe", "A100", "CS22301 Microlearning")` and the handle
`certificates/A100_CS22301_Microlearning.pdf` is exposed. -/
theorem confirm_eligible_certifies_witness :
    (rerun cfg0 sWatch (Event.confirmClick none) "" 600).issuerCalls =
      [("Jane Doe", "A100", "CS22301 Microlearning")] ∧
    (rerun cfg0 sWatch (Event.confirmClick none) "" 600).exposedCert =
      some "certificates/A100_CS22301_Microlearning.pdf" := by
  have h := confirm_eligible_certifies cfg0 sWatch dfJane 0
    [("Reg_No", "A100"), ("Name", "Jane Doe")] "" 600 rfl rfl rfl rfl
    (by decide)
  constructor
  · rw [h.1]
    decide
  · rw [h.1]
    decide

/-- C9: when the Certificate Issuer raises during an eligible confirm click,
the exception is surfaced (Streamlit renders uncaught script exceptions in
the app without killing the server; `st.stop` is never reached, so the run is
not the process-fatal roster halt), the certificate fields stay unset so the
session remains Eligible, and a later confirm click with a working Issuer
still certifies — the user can retry. -/
theorem issuer_failure_recoverable (cfg : Config) (s : AppState) (df : Df)
    (lt : Nat) (e : String) (reg_no : String) (now : Nat)
    (hdf : s.df = some df) (hts : s.timer_started = true)
    (hcr : s.certificate_ready = false) (hlt : s.login_time = some lt)
    (helig : (cfg.duration : Int) ≤ (now : Int) - (lt : Int)) :
    (rerun cfg s (Event.confirmClick (some e)) reg_no now).exc = some e ∧
    (rerun cfg s (Event.confirmClick (some e)) reg_no now).halted = false ∧
    (rerun cfg s (Event.confirmClick (some e)) reg_no now).state =
      { s with video_done := true } ∧
    phase cfg { s with video_done := true } now = Phase.Eligible ∧
    (∀ now₂ : Nat,
      (rerun cfg { s with video_done := true } (Event.confirmClick none)
        reg_no now₂).state.certificate_ready = true ∧
      (rerun cfg { s with video_done := true } (Event.confirmClick none)
        reg_no now₂).issuerCalls =
        [(studentName s, studentReg s reg_no, cfg.subject)]) := by
  rw [rerun_confirm_outcome cfg s df (some e) reg_no now hdf,
    videoStep_eligible_exc cfg s e reg_no now lt hts hlt (Or.inr helig)]
  refine ⟨rfl, rfl, rfl, ?_, ?_⟩
  · simp only [phase]
    rw [if_neg (by simp [hcr]), if_pos (by simp [hts]),
      if_pos (by simp [hlt]; omega)]
  · intro now₂
    rw [rerun_confirm_outcome cfg { s with video_done := true } df none reg_no
        now₂ hdf,
      videoStep_eligible_ok cfg { s with video_done := true } reg_no now₂ lt
        hts hlt (Or.inl rfl)]
    exact ⟨by simp [certifiedState], by simp [studentName, studentReg]⟩

/-- Witness for C9 on the scenario at t=600 with an Issuer raising "boom":
the exception is surfaced, the session is still Eligible (not certified),
and the retry at t=650 certifies. -/
theorem issuer_failure_recoverable_witness :
    (rerun cfg0 sWatch (Event.confirmClick (some "boom")) "" 600).exc =
      some "boom" ∧
    ((rerun cfg0 sWatch (Event.confirmClick (some "boom")) "" 600).state).certificate_ready = false ∧
    ((rerun cfg0 { sWatch with video_done := true } (Event.confirmClick none)
      "" 650).state).certificate_ready = true := by
  have h := issuer_failure_recoverable cfg0 sWatch dfJane 0 "boom" "" 600
    rfl rfl rfl rfl (by decide)
  refine ⟨h.1, ?_, (h.2.2.2.2 650).1⟩
  rw [h.2.2.1]
  rfl

/-- C10: an admin-triggered roster reload whose load fails (any of the three
failure modes of `load_student_file` returns None) overwrites the in-memory
roster with None rather than keeping the previous roster, and every
subsequent rerun, whatever its event, halts at the roster guard of app.py
lines 113-115 with the session state frozen — a failed reload loses the old
roster. -/
theorem failed_reload_loses_roster (cfg : Config) (s : AppState) (df : Df)
    (pw : String) (reg_no : String) (now : Nat)
    (hdf : s.df = some df) (hpw : pw = cfg.adminPw) :
    (rerun cfg s (Event.adminReload pw none) reg_no now).state.df = none ∧
    ∀ (ev : Event) (q : String) (now₂ : Nat),
      rerun cfg (rerun cfg s (Event.adminReload pw none) reg_no now).state
          ev q now₂ =
        { state := (rerun cfg s (Event.adminReload pw none) reg_no now).state,
          halted := true, loginError := none, issuerCalls := [],
          warning := none, exc := none, exposedCert := none } := by
  have hmain :
      (rerun cfg s (Event.adminReload pw none) reg_no now).state.df = none := by
    rw [rerun_admin_outcome cfg s df pw none reg_no now hdf]
    simp [hpw]
  have halt : ∀ (t : AppState), t.df = none → ∀ (ev : Event) (q : String)
      (now₂ : Nat),
      rerun cfg t ev q now₂ =
        { state := t, halted := true, loginError := none, issuerCalls := [],
          warning := none, exc := none, exposedCert := none } := by
    intro t ht ev q now₂
    simp [rerun, ht]
  exact ⟨hmain, fun ev q now₂ => halt _ hmain ev q now₂⟩

/-- Witness for C10: a failed reload with the right password on the Jane Doe
session leaves no roster and freezes the next rerun. -/
theorem failed_reload_loses_roster_witness :
    (rerun cfg0 sWatch (Event.adminReload "pw" none) "" 650).state.df =
      none := by
  have h := failed_reload_loses_roster cfg0 sWatch dfJane "pw" "" 650 rfl rfl
  exact h.1

end Microlearning
